import Mathlib

/-!
Shallow embedding of `src/audioserver.py`: a Flask/flask-restful CRUD
service over a MongoDB collection of audio-file metadata documents.

JSON bodies, request data and stored documents are Python dicts, modelled
as association lists of string keys to JSON values.  The MongoDB
collection is a list of documents; the subset of the pymongo API the
server uses (`insert_one`, `find_one`, `find`, `find_one_and_delete`,
`find_one_and_replace`) is modelled over that list, with filters of the
shapes `{'type': t, '_id': i}` and `{'type': t}` as the server builds
them.  Python-level exceptions that escape a handler (the framework then
renders a generic 500 page, not the handler's JSON envelope) are modelled
by the `HandlerResult.crash` outcome.
-/

/-- A JSON value as the server manipulates it: strings, integers and
objects (Python dicts) cover every value the handlers inspect. -/
inductive JValue where
  | str (s : String)
  | int (n : Int)
  | obj (fields : List (String × JValue))

mutual

/-- Decidable equality of JSON values (deriving cannot handle the nested
occurrence, so it is spelled out). -/
def JValue.decEq : (a b : JValue) → Decidable (a = b)
  | .str a, .str b =>
    if h : a = b then isTrue (by rw [h]) else isFalse (by simp [h])
  | .int a, .int b =>
    if h : a = b then isTrue (by rw [h]) else isFalse (by simp [h])
  | .obj a, .obj b =>
    match JValue.decEqFields a b with
    | isTrue h => isTrue (by rw [h])
    | isFalse h => isFalse (by simp [h])
  | .str _, .int _ => isFalse (by simp)
  | .str _, .obj _ => isFalse (by simp)
  | .int _, .str _ => isFalse (by simp)
  | .int _, .obj _ => isFalse (by simp)
  | .obj _, .str _ => isFalse (by simp)
  | .obj _, .int _ => isFalse (by simp)

/-- Decidable equality of object field lists. -/
def JValue.decEqFields :
    (a b : List (String × JValue)) → Decidable (a = b)
  | [], [] => isTrue rfl
  | [], _ :: _ => isFalse (by simp)
  | _ :: _, [] => isFalse (by simp)
  | (k1, v1) :: r1, (k2, v2) :: r2 =>
    if hk : k1 = k2 then
      match JValue.decEq v1 v2, JValue.decEqFields r1 r2 with
      | isTrue hv, isTrue hr => isTrue (by rw [hk, hv, hr])
      | isFalse hv, _ => isFalse (by simp [hv])
      | _, isFalse hr => isFalse (by simp [hr])
    else isFalse (by simp [hk])

end

instance : DecidableEq JValue := JValue.decEq

instance {ε α : Type} [DecidableEq ε] [DecidableEq α] :
    DecidableEq (Except ε α) := fun x y =>
  match x, y with
  | .ok a, .ok b =>
    if h : a = b then isTrue (by rw [h]) else isFalse (by simp [h])
  | .error a, .error b =>
    if h : a = b then isTrue (by rw [h]) else isFalse (by simp [h])
  | .ok _, .error _ => isFalse (by simp)
  | .error _, .ok _ => isFalse (by simp)

/-- A Python dict with string keys, as an association list (first match
wins on lookup, as dict keys are unique in Python). -/
abbrev PyDict := List (String × JValue)

/-- A document of the MongoDB collection: a dict. -/
abbrev Document := PyDict

/-- The MongoDB collection `client['AudioServer']['audiofiles']`. -/
abbrev Store := List Document

/-- `d[k]` lookup on a Python dict, `none` for a missing key. -/
def dget (d : PyDict) (k : String) : Option JValue :=
  match d with
  | [] => none
  | (k', v) :: rest => if k' = k then some v else dget rest k

/-- Whether the dict has the key. -/
def containsKey (d : PyDict) (k : String) : Bool :=
  match d with
  | [] => false
  | (k', _) :: rest => k' = k || containsKey rest k

/-- `d[k] = v` assignment on a Python dict: overwrite in place when the
key exists, append otherwise (Python dicts keep insertion order). -/
def dset (d : PyDict) (k : String) (v : JValue) : PyDict :=
  if containsKey d k then
    d.map (fun p => if p.1 = k then (k, v) else p)
  else d ++ [(k, v)]

/-- Python `str.lower()`.  Lean's `Char.toLower` is ASCII-only where
Python's is Unicode-wide; they agree on the ASCII tokens the server
compares against. -/
def pyLower (s : String) : String := String.mk (s.data.map Char.toLower)

/-- Python `str.capitalize()`: first character uppercased, the rest
lowercased (ASCII, as for `pyLower`). -/
def pyCapitalize (s : String) : String :=
  match s.data with
  | [] => ""
  | c :: cs => String.mk (Char.toUpper c :: cs.map Char.toLower)

/-- Python `str(v)` for the values the handlers interpolate into
messages (only string and integer ids reach an f-string in practice). -/
def jstr : JValue → String
  | .str s => s
  | .int n => toString n
  | .obj _ => "<dict>"

/-- Whether a JSON value is a Python dict (`isinstance(v, dict)`). -/
def isDict : JValue → Bool
  | .obj _ => true
  | _ => false

/-- A Python exception escaping a handler. -/
inductive PyError where
  | typeError
  | keyError (key : String)
deriving DecidableEq

/-- The two failure kinds of the metadata generator (`audio` module):
`MetadataValueError` and `MetadataGenerationError`. -/
inductive MetaErr where
  | valueError (msg : String)
  | genError (msg : String)
deriving DecidableEq

/-- The three supported audio content variants, the classes `Song`,
`Podcast` and `Audiobook` of the `audio` module (the spec's
Track/Show/Book). -/
inductive AudioType where
  | song
  | podcast
  | audiobook
deriving DecidableEq

/-- An audio object as the handlers use it: its only inspected attribute
is `.metadata`, the generated record. -/
structure AudioFile where
  atype : AudioType
  metadata : Document
deriving DecidableEq

/-- Modelled from the spec: the metadata-generation collaborator (the
`audio` module's `Song`/`Podcast`/`Audiobook` constructors) is not part
of the repository's source tree; per the spec it is a black-box
constructor `construct(attributes) -> Record` that may fail with the two
distinct error kinds.  It is kept abstract: every theorem quantifies over
the generator. -/
def Generator := AudioType → JValue → Except MetaErr Document

/-- The response dict assembled by the handlers.  Fields absent from a
given response stay `none`; `pre_update` and `post_update` are the JSON
keys `pre-update` and `post-update` (the former's value may itself be
JSON null, hence the nested option), and `matchCount` is the JSON key
`matches`, which is a reserved word here. -/
structure Response where
  status : Nat
  message : String
  error : Option String := none
  result : Option String := none
  document : Option JValue := none
  documents : Option (List Document) := none
  matchCount : Option Nat := none
  pre_update : Option (Option Document) := none
  post_update : Option Document := none
deriving DecidableEq

/-- `generate_400_response` of `audioserver.py`. -/
def generate_400_response (error : String) : Response :=
  { status := 400, message := "Bad Request", error := some error }

/-- `generate_500_response` of `audioserver.py`. -/
def generate_500_response (error : String) : Response :=
  { status := 500, message := "Internal Server Error", error := some error }

/-- What a handler produces: a `(response, code)` pair returned to
flask-restful, or an uncaught Python exception. -/
inductive HandlerResult where
  | resp (response : Response) (code : Nat)
  | crash (e : PyError)
deriving DecidableEq

/-- A handler run: its result, the collection after the run, and how
many collection operations it performed. -/
structure Outcome where
  result : HandlerResult
  store : Store
  storeCalls : Nat
deriving DecidableEq

/-- The MongoDB filter `{'type': t, '_id': i}` applied to a document. -/
def matchTypeId (t : String) (id : Int) (d : Document) : Bool :=
  dget d "type" == some (JValue.str t) && dget d "_id" == some (JValue.int id)

/-- The MongoDB filter `{'type': t}` applied to a document. -/
def matchType (t : String) (d : Document) : Bool :=
  dget d "type" == some (JValue.str t)

/-- `collection.find_one({'type': t, '_id': i})`. -/
def find_one (t : String) (id : Int) (st : Store) : Option Document :=
  st.find? (matchTypeId t id)

/-- `collection.find({'type': t})`, fully drained into a list. -/
def findAll (t : String) (st : Store) : List Document :=
  st.filter (matchType t)

/-- `collection.find_one_and_delete({'type': t, '_id': i})`: the matched
document (if any) and the collection after removal. -/
def find_one_and_delete (t : String) (id : Int) (st : Store) :
    Option Document × Store :=
  match st.find? (matchTypeId t id) with
  | none => (none, st)
  | some d => (some d, st.eraseP (matchTypeId t id))

/-- Replace the first document satisfying the predicate. -/
def replaceFirst (p : Document → Bool) (newDoc : Document) : Store → Store
  | [] => []
  | d :: rest => if p d then newDoc :: rest else d :: replaceFirst p newDoc rest

/-- `collection.find_one_and_replace(filter, newDoc)`: the matched
document before replacement (if any) and the collection after. -/
def find_one_and_replace (t : String) (id : Int) (newDoc : Document)
    (st : Store) : Option Document × Store :=
  match st.find? (matchTypeId t id) with
  | none => (none, st)
  | some pre => (some pre, replaceFirst (matchTypeId t id) newDoc st)

/-- The acknowledgement of `collection.insert_one`. -/
structure InsertResult where
  acknowledged : Bool
  insertedId : Option JValue
deriving DecidableEq

/-- `collection.insert_one(d)`.  ObjectId auto-assignment for documents
without an `_id` is not modelled: no handler of this server reaches an
insert (see `Create.post`), so the `insertedId` is simply the document's
own `_id` field. -/
def insert_one (d : Document) (st : Store) : InsertResult × Store :=
  ({ acknowledged := true, insertedId := dget d "_id" }, st ++ [d])

/-- The supported type tokens `['song','podcast','audiobook']` the
handlers test membership against. -/
def supportedTypes : List String := ["song", "podcast", "audiobook"]

/-- Python truthiness of an optional document, as in `if not old_doc:`
or `if result`: `None` and the empty dict are falsy. -/
def pyTruthyDoc : Option Document → Bool
  | none => false
  | some d => !d.isEmpty

/-- `new_audio` of `audioserver.py`: lowercases the type token,
dispatches to the matching constructor, returns `none` for any other
token; the two generator error kinds are re-raised unchanged (wrapping
an exception in the same class keeps its message). -/
def new_audio (audiotype : String) (audiometadata : JValue)
    (gen : Generator) : Except MetaErr (Option AudioFile) :=
  let t := pyLower audiotype
  if t = "song" then
    match gen AudioType.song audiometadata with
    | .ok d => .ok (some { atype := AudioType.song, metadata := d })
    | .error e => .error e
  else if t = "podcast" then
    match gen AudioType.podcast audiometadata with
    | .ok d => .ok (some { atype := AudioType.podcast, metadata := d })
    | .error e => .error e
  else if t = "audiobook" then
    match gen AudioType.audiobook audiometadata with
    | .ok d => .ok (some { atype := AudioType.audiobook, metadata := d })
    | .error e => .error e
  else .ok none

namespace Create

/-- Lines 69-92 of `Create.post`: capitalize the token, build the record
through `new_audio` mapping its two failure kinds to 400/500, insert the
metadata and answer 200.  In the source this code stands after the
one-argument `isinstance` call that always raises (see `Create.post`
below), so no request reaches it; it is modelled on its own.  Note the
unsupported-type message interpolates `audiofile` - which is `None` on
that branch - not the offending token. -/
def buildInsertRespond (audiotype0 : String) (audiometadata : JValue)
    (gen : Generator) (st : Store) : Outcome :=
  let audiotype := pyCapitalize audiotype0
  match new_audio audiotype audiometadata gen with
  | .error (.valueError e) =>
      ⟨.resp (generate_400_response s!"{e}") 400, st, 0⟩
  | .error (.genError e) =>
      ⟨.resp (generate_500_response
        s!"metadata generation for {audiotype} - {e}") 500, st, 0⟩
  | .ok none =>
      ⟨.resp (generate_400_response "'None' is not supported") 400, st, 0⟩
  | .ok (some audiofile) =>
      match insert_one audiofile.metadata st with
      | (ins, st') =>
        if !ins.acknowledged then
          ⟨.resp (generate_500_response "database insertion failed") 500, st', 1⟩
        else
          ⟨.resp { status := 200, message := "Creation Completed",
                   result := some s!"{audiotype} file with ID {jstr (ins.insertedId.getD (JValue.int 0))} has been created",
                   document := ins.insertedId } 200, st', 1⟩

/-- `Create.post`: reads `audioFileType` and `audioFileMetadata` from
the JSON body, answering 400 with the missing key's repr on `KeyError`;
then the source runs `if not isinstance(audiotype):` - `isinstance`
called with a single argument - which raises `TypeError` unconditionally,
so every request carrying both keys crashes before the type is examined
and before any generator or collection call. -/
def post (data : PyDict) (_gen : Generator) (st : Store) : Outcome :=
  match dget data "audioFileType" with
  | none => ⟨.resp (generate_400_response "'audioFileType' is required") 400, st, 0⟩
  | some _audiotype =>
    match dget data "audioFileMetadata" with
    | none => ⟨.resp (generate_400_response "'audioFileMetadata' is required") 400, st, 0⟩
    | some _audiometadata =>
      ⟨.crash .typeError, st, 0⟩

end Create

namespace Delete

/-- `Delete.get`: capitalize and check the type token, find-and-delete
by `{'type', '_id'}`; a missing match is an explicit 200 "No document
deleted".  `delete_res['_id']` outside any try block would raise
`KeyError` were the key absent (the filter guarantees it is not). -/
def get (audiotype0 : String) (audioID : Int) (st : Store) : Outcome :=
  let audiotype := pyCapitalize audiotype0
  if pyLower audiotype ∉ supportedTypes then
    ⟨.resp (generate_400_response s!"'{audiotype}' is not supported") 400, st, 0⟩
  else
    match find_one_and_delete audiotype audioID st with
    | (deleteRes, st') =>
      if pyTruthyDoc deleteRes = false then
        ⟨.resp { status := 200, message := "Delete Completed",
                 result := some "No document deleted" } 200, st', 1⟩
      else
        match dget (deleteRes.getD []) "_id" with
        | none => ⟨.crash (.keyError "'_id'"), st', 1⟩
        | some idv =>
          ⟨.resp { status := 200, message := "Delete Completed",
                   result := some s!"{audiotype} file with ID {jstr idv}",
                   document := some idv } 200, st', 1⟩

end Delete

namespace Update

/-- `Update.post`: capitalize and check the path token; read the two
body keys - on `KeyError` the source calls `generate_400_response()`
with no argument, a `TypeError` that escapes the handler; shape-check
the two values; require the body token, capitalized, to equal the path
token; locate the document (absence is a 400); build the replacement via
`new_audio`, mapping its failure kinds to 400/500; give the replacement
the located document's `_id` and replace wholesale. -/
def post (audiotype0 : String) (audioID : Int) (data : PyDict)
    (gen : Generator) (st : Store) : Outcome :=
  let audiotype := pyCapitalize audiotype0
  if pyLower audiotype ∉ supportedTypes then
    ⟨.resp (generate_400_response s!"'{audiotype}' is not supported") 400, st, 0⟩
  else
    match dget data "audioFileType" with
    | none => ⟨.crash .typeError, st, 0⟩
    | some audiotypParam =>
      match dget data "audioFileMetadata" with
      | none => ⟨.crash .typeError, st, 0⟩
      | some audiometadata =>
        match audiotypParam with
        | JValue.str s =>
          if isDict audiometadata = false then
            ⟨.resp (generate_400_response "'audioFileMetadata' must be a dict") 400, st, 0⟩
          else if pyCapitalize s ≠ audiotype then
            ⟨.resp (generate_400_response "'audioFileType' must match endpoint") 400, st, 0⟩
          else
            match find_one audiotype audioID st with
            | none =>
              ⟨.resp (generate_400_response s!"No document found for ID - {audioID}") 400, st, 1⟩
            | some oldDoc =>
              if oldDoc.isEmpty then
                ⟨.resp (generate_400_response s!"No document found for ID - {audioID}") 400, st, 1⟩
              else
                match new_audio audiotype audiometadata gen with
                | .error (.valueError e) =>
                  ⟨.resp (generate_400_response s!"{e}") 400, st, 1⟩
                | .error (.genError e) =>
                  ⟨.resp (generate_500_response
                    s!"metadata generation for {audiotype} - {e}") 500, st, 1⟩
                | .ok none =>
                  ⟨.resp (generate_400_response s!"'{audiotype}' is not supported") 400, st, 1⟩
                | .ok (some newAudiofile) =>
                  match dget oldDoc "_id" with
                  | none =>
                    ⟨.resp (generate_500_response "document update failed - '_id'") 500, st, 1⟩
                  | some oldId =>
                    let newDocument := dset newAudiofile.metadata "_id" oldId
                    match find_one_and_replace audiotype audioID newDocument st with
                    | (preUpdateDoc, st') =>
                      ⟨.resp { status := 200, message := "Update Complete",
                               result := some s!"{audiotype} file with ID {audioID} has been updated",
                               pre_update := some preUpdateDoc,
                               post_update := some newDocument,
                               document := some (JValue.int audioID) } 200, st', 2⟩
        | _ => ⟨.resp (generate_400_response "'audioFileType' must be an str") 400, st, 0⟩

end Update

namespace Get

/-- `Get.get`: capitalize and check the type token; `if audioID:` tests
Python truthiness, so both `None` and `0` take the all-documents branch;
a single lookup wraps the found document in a list (`[result] if result
else []`); always 200 with the list and its length as `matches`. -/
def get (audiotype0 : String) (audioID : Option Int) (st : Store) : Outcome :=
  let audiotype := pyCapitalize audiotype0
  if pyLower audiotype ∉ supportedTypes then
    ⟨.resp (generate_400_response s!"'{audiotype}' is not supported") 400, st, 0⟩
  else
    let result :=
      match audioID with
      | some id =>
        if id ≠ 0 then
          let found := find_one audiotype id st
          if pyTruthyDoc found then [found.getD []] else []
        else findAll audiotype st
      | none => findAll audiotype st
    ⟨.resp { status := 200, message := "Get Complete",
             result := some s!"{result.length} result(s) found",
             documents := some result,
             matchCount := some result.length } 200, st, 1⟩

end Get

/-- A generator that always succeeds with a fixed record, for concrete
witness runs. -/
def genConstOK : Generator := fun _ _ => Except.ok [("title", JValue.str "x")]

/-- A generator that always raises `MetadataValueError`, for concrete
witness runs. -/
def genConstValueError : Generator :=
  fun _ _ => Except.error (MetaErr.valueError "bad metadata")

/-- A generator that always raises `MetadataGenerationError`, for
concrete witness runs. -/
def genConstGenError : Generator :=
  fun _ _ => Except.error (MetaErr.genError "boom")

/-- A stored Song document with `_id` 1, for concrete witness runs. -/
def docW : Document :=
  [("type", JValue.str "Song"), ("_id", JValue.int 1), ("name", JValue.str "old song")]

/-- A well-formed Update body for type song, for concrete witness runs. -/
def dataW : PyDict :=
  [("audioFileType", JValue.str "Song"), ("audioFileMetadata", JValue.obj [])]

/-! Helper lemmas about dict lookup, dict assignment and the store
filters, used by the claim theorems below. -/

theorem dget_map_set (d : PyDict) (k : String) (v : JValue)
    (h : containsKey d k = true) :
    dget (d.map (fun p => if p.1 = k then (k, v) else p)) k = some v := by
  induction d with
  | nil => simp [containsKey] at h
  | cons p rest ih =>
    obtain ⟨k', v'⟩ := p
    simp only [List.map_cons]
    by_cases hk : k' = k
    · subst hk
      rw [if_pos rfl]
      simp [dget]
    · rw [if_neg hk]
      simp only [containsKey, Bool.or_eq_true, decide_eq_true_eq] at h
      rcases h with h | h
      · exact absurd h hk
      · simp only [dget, if_neg hk]
        exact ih h

theorem dget_append_nokey (d : PyDict) (k : String) (v : JValue)
    (h : containsKey d k = false) :
    dget (d ++ [(k, v)]) k = some v := by
  induction d with
  | nil => simp [dget]
  | cons p rest ih =>
    obtain ⟨k', v'⟩ := p
    simp only [containsKey, Bool.or_eq_false_iff, decide_eq_false_iff_not] at h
    simp only [List.cons_append, dget, if_neg h.1]
    exact ih h.2

theorem dget_dset_self (d : PyDict) (k : String) (v : JValue) :
    dget (dset d k v) k = some v := by
  unfold dset
  by_cases h : containsKey d k = true
  · rw [if_pos h]
    exact dget_map_set d k v h
  · rw [if_neg h]
    exact dget_append_nokey d k v (by simpa using h)

theorem dget_map_set_ne (d : PyDict) (k : String) (v : JValue) (k' : String)
    (hk : k' ≠ k) :
    dget (d.map (fun p => if p.1 = k then (k, v) else p)) k' = dget d k' := by
  induction d with
  | nil => rfl
  | cons p rest ih =>
    obtain ⟨k1, v1⟩ := p
    simp only [List.map_cons]
    by_cases h1 : k1 = k
    · subst h1
      rw [if_pos rfl]
      simp only [dget]
      rw [if_neg (fun hh : k1 = k' => hk hh.symm), if_neg (fun hh : k1 = k' => hk hh.symm)]
      exact ih
    · rw [if_neg h1]
      simp only [dget]
      by_cases h2 : k1 = k'
      · rw [if_pos h2, if_pos h2]
      · rw [if_neg h2, if_neg h2]; exact ih

theorem dget_append_ne (d : PyDict) (k : String) (v : JValue) (k' : String)
    (hk : k' ≠ k) :
    dget (d ++ [(k, v)]) k' = dget d k' := by
  induction d with
  | nil => simp [dget, if_neg (Ne.symm hk)]
  | cons p rest ih =>
    obtain ⟨k1, v1⟩ := p
    simp only [List.cons_append, dget]
    by_cases h : k1 = k'
    · rw [if_pos h, if_pos h]
    · rw [if_neg h, if_neg h]; exact ih

theorem dget_dset_ne (d : PyDict) (k : String) (v : JValue) (k' : String)
    (hk : k' ≠ k) :
    dget (dset d k v) k' = dget d k' := by
  unfold dset
  by_cases h : containsKey d k = true
  · rw [if_pos h]; exact dget_map_set_ne d k v k' hk
  · rw [if_neg h]; exact dget_append_ne d k v k' hk

theorem find_one_matches {t : String} {id : Int} {st : Store} {d : Document}
    (h : find_one t id st = some d) : matchTypeId t id d = true :=
  List.find?_some h

theorem matchTypeId_type {t : String} {id : Int} {d : Document}
    (h : matchTypeId t id d = true) : dget d "type" = some (JValue.str t) := by
  simp only [matchTypeId, Bool.and_eq_true, beq_iff_eq] at h
  exact h.1

theorem matchTypeId_id {t : String} {id : Int} {d : Document}
    (h : matchTypeId t id d = true) : dget d "_id" = some (JValue.int id) := by
  simp only [matchTypeId, Bool.and_eq_true, beq_iff_eq] at h
  exact h.2

theorem find_one_not_empty {t : String} {id : Int} {st : Store} {d : Document}
    (h : find_one t id st = some d) : d.isEmpty = false := by
  have ht := matchTypeId_type (find_one_matches h)
  cases d with
  | nil => simp [dget] at ht
  | cons p rest => rfl

/-- Evaluation of `Update.post` once every validation step has passed
and the target document has been located: the outcome is decided by the
generator's verdict. -/
theorem update_post_after_validation
    (pt : String) (pid : Int) (data : PyDict) (gen : Generator) (st : Store)
    (bt : String) (bm : JValue) (old : Document)
    (hSup : pyLower (pyCapitalize pt) ∈ supportedTypes)
    (hT : dget data "audioFileType" = some (JValue.str bt))
    (hM : dget data "audioFileMetadata" = some bm)
    (hD : isDict bm = true)
    (hMatch : pyCapitalize bt = pyCapitalize pt)
    (hFound : find_one (pyCapitalize pt) pid st = some old) :
    Update.post pt pid data gen st =
      match new_audio (pyCapitalize pt) bm gen with
      | .error (.valueError e) =>
        ⟨.resp (generate_400_response s!"{e}") 400, st, 1⟩
      | .error (.genError e) =>
        ⟨.resp (generate_500_response s!"metadata generation for {pyCapitalize pt} - {e}") 500, st, 1⟩
      | .ok none =>
        ⟨.resp (generate_400_response s!"'{pyCapitalize pt}' is not supported") 400, st, 1⟩
      | .ok (some file) =>
        ⟨.resp { status := 200, message := "Update Complete",
                 result := some s!"{pyCapitalize pt} file with ID {pid} has been updated",
                 pre_update := some (some old),
                 post_update := some (dset file.metadata "_id" (JValue.int pid)),
                 document := some (JValue.int pid) } 200,
          replaceFirst (matchTypeId (pyCapitalize pt) pid)
            (dset file.metadata "_id" (JValue.int pid)) st, 2⟩ := by
  have hId : dget old "_id" = some (JValue.int pid) :=
    matchTypeId_id (find_one_matches hFound)
  have hNE : old.isEmpty = false := find_one_not_empty hFound
  have hF' : List.find? (matchTypeId (pyCapitalize pt) pid) st = some old := hFound
  unfold Update.post
  rw [if_neg (not_not_intro hSup), hT, hM]
  simp only []
  rw [if_neg (by simp [hD]), if_neg (not_not_intro hMatch), hFound]
  simp only [hNE, Bool.false_eq_true, if_false]
  cases hb : new_audio (pyCapitalize pt) bm gen with
  | error e =>
    cases e with
    | valueError e => simp
    | genError e => simp
  | ok fo =>
    cases fo with
    | none => simp
    | some file =>
      simp only []
      rw [hId]
      unfold find_one_and_replace
      rw [hF']

/-- C1: the claim fails on the code.  For a Create body holding both
required keys and the unsupported token "video", the handler never
returns the claimed 400 carrying the token: `if not isinstance(audiotype):`
calls `isinstance` with a single argument, raising `TypeError` before the
token is examined (and the 400 branch below it would interpolate the
`None` build result, not the token).  The store is never touched. -/
theorem create_unsupported_type_crashes (gen : Generator) (st : Store) :
    Create.post [("audioFileType", JValue.str "video"),
                 ("audioFileMetadata", JValue.obj [])] gen st
      = ⟨HandlerResult.crash PyError.typeError, st, 0⟩ := rfl

/-- C2: the claim fails on the code.  An Update body lacking
`audioFileType` or `audioFileMetadata` does not get a 400 naming the
missing key: the `except KeyError` clause calls `generate_400_response()`
with no argument, raising `TypeError`.  The store is never touched. -/
theorem update_missing_key_crashes (gen : Generator) (st : Store) :
    Update.post "song" 1 [("audioFileType", JValue.str "Song")] gen st
      = ⟨HandlerResult.crash PyError.typeError, st, 0⟩ ∧
    Update.post "song" 1 [("audioFileMetadata", JValue.obj [])] gen st
      = ⟨HandlerResult.crash PyError.typeError, st, 0⟩ :=
  ⟨rfl, rfl⟩

/-- C3: for every input string, `new_audio` resolves exactly the
case-insensitive tokens song/podcast/audiobook to the matching variant
(handing the metadata to that variant's constructor) and returns `None`
for every other string. -/
theorem new_audio_token_resolution (s : String) (m : JValue) (gen : Generator) :
    (pyLower s = "song" →
      new_audio s m gen = Except.map
        (fun d => some { atype := AudioType.song, metadata := d }) (gen AudioType.song m)) ∧
    (pyLower s = "podcast" →
      new_audio s m gen = Except.map
        (fun d => some { atype := AudioType.podcast, metadata := d }) (gen AudioType.podcast m)) ∧
    (pyLower s = "audiobook" →
      new_audio s m gen = Except.map
        (fun d => some { atype := AudioType.audiobook, metadata := d }) (gen AudioType.audiobook m)) ∧
    (pyLower s ∉ supportedTypes → new_audio s m gen = Except.ok none) ∧
    (∀ file : AudioFile, new_audio s m gen = Except.ok (some file) →
      (pyLower s = "song" ∧ file.atype = AudioType.song) ∨
      (pyLower s = "podcast" ∧ file.atype = AudioType.podcast) ∨
      (pyLower s = "audiobook" ∧ file.atype = AudioType.audiobook)) := by
  refine ⟨?_, ?_, ?_, ?_, ?_⟩
  · intro h
    simp only [new_audio, h]
    rw [if_pos trivial]
    cases gen AudioType.song m <;> rfl
  · intro h
    simp only [new_audio, h]
    rw [if_neg (by decide), if_pos trivial]
    cases gen AudioType.podcast m <;> rfl
  · intro h
    simp only [new_audio, h]
    rw [if_neg (by decide), if_neg (by decide), if_pos trivial]
    cases gen AudioType.audiobook m <;> rfl
  · intro h
    have h1 : pyLower s ≠ "song" := fun hh => h (by rw [hh]; decide)
    have h2 : pyLower s ≠ "podcast" := fun hh => h (by rw [hh]; decide)
    have h3 : pyLower s ≠ "audiobook" := fun hh => h (by rw [hh]; decide)
    simp only [new_audio]
    rw [if_neg h1, if_neg h2, if_neg h3]
  · intro file hf
    by_cases h1 : pyLower s = "song"
    · left
      refine ⟨h1, ?_⟩
      simp only [new_audio, h1] at hf
      rw [if_pos trivial] at hf
      revert hf
      cases gen AudioType.song m with
      | ok d =>
        intro hf
        simp only [Except.ok.injEq, Option.some.injEq] at hf
        rw [← hf]
      | error e =>
        intro hf
        exact absurd hf (by simp)
    · by_cases h2 : pyLower s = "podcast"
      · right; left
        refine ⟨h2, ?_⟩
        simp only [new_audio, h2] at hf
        rw [if_neg (by decide), if_pos trivial] at hf
        revert hf
        cases gen AudioType.podcast m with
        | ok d =>
          intro hf
          simp only [Except.ok.injEq, Option.some.injEq] at hf
          rw [← hf]
        | error e =>
          intro hf
          exact absurd hf (by simp)
      · by_cases h3 : pyLower s = "audiobook"
        · right; right
          refine ⟨h3, ?_⟩
          simp only [new_audio, h3] at hf
          rw [if_neg (by decide), if_neg (by decide), if_pos trivial] at hf
          revert hf
          cases gen AudioType.audiobook m with
          | ok d =>
            intro hf
            simp only [Except.ok.injEq, Option.some.injEq] at hf
            rw [← hf]
          | error e =>
            intro hf
            exact absurd hf (by simp)
        · simp only [new_audio] at hf
          rw [if_neg h1, if_neg h2, if_neg h3] at hf
          exact absurd hf (by simp)

/-- C3 witness: the mixed-case token "SoNG" resolves to the Song variant
carrying the generated record, and "video" resolves to `None`. -/
theorem new_audio_token_resolution_witness :
    new_audio "SoNG" (JValue.obj []) genConstOK
      = Except.ok (some
          { atype := AudioType.song,
            metadata := [("title", JValue.str "x")] }) ∧
    new_audio "video" (JValue.obj []) genConstOK = Except.ok none := by
  constructor
  · have h := (new_audio_token_resolution "SoNG" (JValue.obj []) genConstOK).1
      (by decide)
    rw [h]; decide
  · exact (new_audio_token_resolution "video" (JValue.obj []) genConstOK).2.2.2.1
      (by decide)

/-- C4: on both write paths' record-construction step, a
`MetadataValueError` from the generator becomes a 400 whose error field
is exactly the error detail, and a `MetadataGenerationError` becomes a
500 whose error field spells out the audio type and the detail - two
distinct response classes.  `Create.buildInsertRespond` is the
construction step of `Create.post` (unreachable in this code: see C1);
for Update the step is exercised through `Update.post` itself. -/
theorem generator_failures_map_to_400_and_500
    (gen : Generator) (st : Store) (ct : String) (cm : JValue)
    (pt : String) (pid : Int) (data : PyDict) (bt : String) (bm : JValue)
    (old : Document) (e : String) :
    (new_audio (pyCapitalize ct) cm gen = Except.error (MetaErr.valueError e) →
      Create.buildInsertRespond ct cm gen st
        = ⟨HandlerResult.resp (generate_400_response s!"{e}") 400, st, 0⟩) ∧
    (new_audio (pyCapitalize ct) cm gen = Except.error (MetaErr.genError e) →
      Create.buildInsertRespond ct cm gen st
        = ⟨HandlerResult.resp (generate_500_response
            s!"metadata generation for {pyCapitalize ct} - {e}") 500, st, 0⟩) ∧
    (pyLower (pyCapitalize pt) ∈ supportedTypes →
      dget data "audioFileType" = some (JValue.str bt) →
      dget data "audioFileMetadata" = some bm →
      isDict bm = true →
      pyCapitalize bt = pyCapitalize pt →
      find_one (pyCapitalize pt) pid st = some old →
      new_audio (pyCapitalize pt) bm gen = Except.error (MetaErr.valueError e) →
      Update.post pt pid data gen st
        = ⟨HandlerResult.resp (generate_400_response s!"{e}") 400, st, 1⟩) ∧
    (pyLower (pyCapitalize pt) ∈ supportedTypes →
      dget data "audioFileType" = some (JValue.str bt) →
      dget data "audioFileMetadata" = some bm →
      isDict bm = true →
      pyCapitalize bt = pyCapitalize pt →
      find_one (pyCapitalize pt) pid st = some old →
      new_audio (pyCapitalize pt) bm gen = Except.error (MetaErr.genError e) →
      Update.post pt pid data gen st
        = ⟨HandlerResult.resp (generate_500_response
            s!"metadata generation for {pyCapitalize pt} - {e}") 500, st, 1⟩) := by
  refine ⟨?_, ?_, ?_, ?_⟩
  · intro h
    simp only [Create.buildInsertRespond, h]
  · intro h
    simp only [Create.buildInsertRespond, h]
  · intro h1 h2 h3 h4 h5 h6 h7
    rw [update_post_after_validation pt pid data gen st bt bm old h1 h2 h3 h4 h5 h6, h7]
  · intro h1 h2 h3 h4 h5 h6 h7
    rw [update_post_after_validation pt pid data gen st bt bm old h1 h2 h3 h4 h5 h6, h7]

/-- C4 witness: a concrete invalid-value failure on the Create build
step yields the 400 with the detail, and a concrete generation failure
on a located Update yields the 500 naming type and detail. -/
theorem generator_failures_map_to_400_and_500_witness :
    Create.buildInsertRespond "song" (JValue.obj []) genConstValueError []
      = ⟨HandlerResult.resp (generate_400_response "bad metadata") 400, [], 0⟩ ∧
    Update.post "song" 1 dataW genConstGenError [docW]
      = ⟨HandlerResult.resp (generate_500_response
          "metadata generation for Song - boom") 500, [docW], 1⟩ := by
  constructor
  · have h := (generator_failures_map_to_400_and_500 genConstValueError []
      "song" (JValue.obj []) "song" 1 dataW "Song" (JValue.obj []) docW
      "bad metadata").1 (by decide)
    rw [h]; decide
  · have h := (generator_failures_map_to_400_and_500 genConstGenError [docW]
      "song" (JValue.obj []) "song" 1 dataW "Song" (JValue.obj []) docW
      "boom").2.2.2 (by decide) (by decide) (by decide) (by decide) (by decide)
      (by decide) (by decide)
    rw [h]; decide

/-- C5 counterexample: a body whose `audioFileType` ("Podcast")
normalizes differently from the path type ("song") but which lacks the
`audioFileMetadata` key makes the handler raise `TypeError` (the broken
`except KeyError` clause, see C2) instead of returning any 400, so the
claim as stated fails on the code. -/
theorem update_mismatch_without_metadata_crashes :
    Update.post "song" 1 [("audioFileType", JValue.str "Podcast")] genConstOK []
      = ⟨HandlerResult.crash PyError.typeError, [], 0⟩ := rfl

/-- C5 (amended): for every Update request whose body holds both
required keys and whose `audioFileType` string, after case
normalization, differs from the path `audiotype`, the handler answers
400 with the store untouched and no store call made. -/
theorem update_type_mismatch_400_before_store
    (pt : String) (pid : Int) (data : PyDict) (gen : Generator) (st : Store)
    (bt : String) (bm : JValue)
    (hT : dget data "audioFileType" = some (JValue.str bt))
    (hM : dget data "audioFileMetadata" = some bm)
    (hMis : pyCapitalize bt ≠ pyCapitalize pt) :
    ∃ e, Update.post pt pid data gen st
      = ⟨HandlerResult.resp (generate_400_response e) 400, st, 0⟩ := by
  unfold Update.post
  by_cases hSup : pyLower (pyCapitalize pt) ∈ supportedTypes
  · rw [if_neg (not_not_intro hSup), hT, hM]
    simp only []
    by_cases hD : isDict bm = true
    · rw [if_neg (by simp [hD]), if_pos hMis]
      exact ⟨_, rfl⟩
    · rw [if_pos (by simpa using hD)]
      exact ⟨_, rfl⟩
  · rw [if_pos hSup]
    exact ⟨_, rfl⟩

/-- C5 witness: a concrete mismatching body with both keys present gets
a 400 with no store access. -/
theorem update_type_mismatch_400_before_store_witness :
    dget [("audioFileType", JValue.str "Podcast"), ("audioFileMetadata", JValue.obj [])]
        "audioFileType" = some (JValue.str "Podcast") ∧
    pyCapitalize "Podcast" ≠ pyCapitalize "song" ∧
    (∃ e, Update.post "song" 1
        [("audioFileType", JValue.str "Podcast"), ("audioFileMetadata", JValue.obj [])]
        genConstOK []
      = ⟨HandlerResult.resp (generate_400_response e) 400, [], 0⟩) :=
  ⟨by decide, by decide,
    update_type_mismatch_400_before_store "song" 1
      [("audioFileType", JValue.str "Podcast"), ("audioFileMetadata", JValue.obj [])]
      genConstOK [] "Podcast" (JValue.obj [])
      (by decide) (by decide) (by decide)⟩

/-- C6: a successful Update replaces the stored document wholesale with
the freshly built record carrying the located document's `_id` (the
response's post-update snapshot), answers 200 with the pre-update
snapshot being the located document, keeps the `_id` equal to the
located document's, and takes every other field of the stored
replacement from the builder output alone. -/
theorem update_success_wholesale_replace
    (pt : String) (pid : Int) (data : PyDict) (gen : Generator) (st : Store)
    (bt : String) (bm : JValue) (old : Document) (file : AudioFile)
    (hSup : pyLower (pyCapitalize pt) ∈ supportedTypes)
    (hT : dget data "audioFileType" = some (JValue.str bt))
    (hM : dget data "audioFileMetadata" = some bm)
    (hD : isDict bm = true)
    (hMatch : pyCapitalize bt = pyCapitalize pt)
    (hFound : find_one (pyCapitalize pt) pid st = some old)
    (hBuild : new_audio (pyCapitalize pt) bm gen = Except.ok (some file)) :
    Update.post pt pid data gen st
      = ⟨HandlerResult.resp
          { status := 200, message := "Update Complete",
            result := some s!"{pyCapitalize pt} file with ID {pid} has been updated",
            pre_update := some (some old),
            post_update := some (dset file.metadata "_id" (JValue.int pid)),
            document := some (JValue.int pid) } 200,
          replaceFirst (matchTypeId (pyCapitalize pt) pid)
            (dset file.metadata "_id" (JValue.int pid)) st, 2⟩ ∧
    dget (dset file.metadata "_id" (JValue.int pid)) "_id" = dget old "_id" ∧
    (∀ k, k ≠ "_id" →
      dget (dset file.metadata "_id" (JValue.int pid)) k = dget file.metadata k) := by
  have key := update_post_after_validation pt pid data gen st bt bm old
    hSup hT hM hD hMatch hFound
  rw [hBuild] at key
  refine ⟨key, ?_, ?_⟩
  · rw [dget_dset_self, matchTypeId_id (find_one_matches hFound)]
  · intro k hk
    exact dget_dset_ne _ _ _ _ hk

/-- C6 witness: a concrete successful Update on the stored Song document
with `_id` 1 replaces it with the builder output plus the old `_id` and
returns both snapshots. -/
theorem update_success_wholesale_replace_witness :
    Update.post "song" 1 dataW genConstOK [docW]
      = ⟨HandlerResult.resp
          { status := 200, message := "Update Complete",
            result := some "Song file with ID 1 has been updated",
            pre_update := some (some docW),
            post_update := some [("title", JValue.str "x"), ("_id", JValue.int 1)],
            document := some (JValue.int 1) } 200,
          [[("title", JValue.str "x"), ("_id", JValue.int 1)]], 2⟩ := by
  have h := (update_success_wholesale_replace "song" 1 dataW genConstOK [docW]
    "Song" (JValue.obj []) docW
    { atype := AudioType.song, metadata := [("title", JValue.str "x")] }
    (by decide) (by decide) (by decide) (by decide) (by decide) (by decide)
    (by decide)).1
  rw [h]; decide

/-- C7: an Update whose `{type, _id}` lookup finds no document answers
400 (not 500) with the "No document found" message, leaves the store
unchanged (so no replacement happens), and has made only the one lookup
call. -/
theorem update_no_document_400
    (pt : String) (pid : Int) (data : PyDict) (gen : Generator) (st : Store)
    (bt : String) (bm : JValue)
    (hSup : pyLower (pyCapitalize pt) ∈ supportedTypes)
    (hT : dget data "audioFileType" = some (JValue.str bt))
    (hM : dget data "audioFileMetadata" = some bm)
    (hD : isDict bm = true)
    (hMatch : pyCapitalize bt = pyCapitalize pt)
    (hNone : find_one (pyCapitalize pt) pid st = none) :
    Update.post pt pid data gen st
      = ⟨HandlerResult.resp (generate_400_response
          s!"No document found for ID - {pid}") 400, st, 1⟩ := by
  unfold Update.post
  rw [if_neg (not_not_intro hSup), hT, hM]
  simp only []
  rw [if_neg (by simp [hD]), if_neg (not_not_intro hMatch), hNone]

/-- C7 witness: a concrete Update against an empty collection answers
400 with the "No document found" message and an unchanged store. -/
theorem update_no_document_400_witness :
    Update.post "song" 7 dataW genConstOK []
      = ⟨HandlerResult.resp (generate_400_response
          "No document found for ID - 7") 400, [], 1⟩ := by
  have h := update_no_document_400 "song" 7 dataW genConstOK [] "Song"
    (JValue.obj []) (by decide) (by decide) (by decide) (by decide) (by decide)
    (by decide)
  rw [h]; decide

/-- C8: a Delete with a supported type whose `{type, _id}` pair matches
no stored document answers 200 with the explicit "No document deleted"
result and leaves the store unchanged, so repeating the same delete
yields the identical outcome - idempotent, never an error. -/
theorem delete_nonexistent_200_idempotent
    (t : String) (id : Int) (st : Store)
    (hSup : pyLower (pyCapitalize t) ∈ supportedTypes)
    (hNone : find_one (pyCapitalize t) id st = none) :
    Delete.get t id st
      = ⟨HandlerResult.resp
          { status := 200, message := "Delete Completed",
            result := some "No document deleted" } 200, st, 1⟩ ∧
    Delete.get t id ((Delete.get t id st).store) = Delete.get t id st := by
  have hF' : List.find? (matchTypeId (pyCapitalize t) id) st = none := hNone
  have h1 : Delete.get t id st
      = ⟨HandlerResult.resp
          { status := 200, message := "Delete Completed",
            result := some "No document deleted" } 200, st, 1⟩ := by
    unfold Delete.get
    rw [if_neg (not_not_intro hSup)]
    unfold find_one_and_delete
    rw [hF']
    rfl
  refine ⟨h1, ?_⟩
  rw [h1]
  exact h1

/-- C8 witness: deleting podcast 3 from a store holding only a Song
document answers 200 "No document deleted" with the store unchanged. -/
theorem delete_nonexistent_200_idempotent_witness :
    Delete.get "podcast" 3 [docW]
      = ⟨HandlerResult.resp
          { status := 200, message := "Delete Completed",
            result := some "No document deleted" } 200, [docW], 1⟩ :=
  (delete_nonexistent_200_idempotent "podcast" 3 [docW] (by decide) (by decide)).1

/-- C9: a Read with a supported type always answers 200 with a documents
list and a `matches` field equal to that list's length; with no
identifier the list is all stored documents of that type (in particular
an empty result is `matches` 0 with status 200, not an error). -/
theorem get_always_200_with_count
    (t : String) (aid : Option Int) (st : Store)
    (hSup : pyLower (pyCapitalize t) ∈ supportedTypes) :
    ∃ l : List Document,
      Get.get t aid st
        = ⟨HandlerResult.resp
            { status := 200, message := "Get Complete",
              result := some s!"{l.length} result(s) found",
              documents := some l, matchCount := some l.length } 200, st, 1⟩ ∧
      (aid = none → l = findAll (pyCapitalize t) st) := by
  unfold Get.get
  rw [if_neg (not_not_intro hSup)]
  cases aid with
  | none => exact ⟨findAll (pyCapitalize t) st, rfl, fun _ => rfl⟩
  | some id => exact ⟨_, rfl, fun h => absurd h (by simp)⟩

/-- C9 witness: reading all songs from a one-Song store answers 200 with
the document list and matching count. -/
theorem get_always_200_with_count_witness :
    ∃ l : List Document,
      Get.get "song" none [docW]
        = ⟨HandlerResult.resp
            { status := 200, message := "Get Complete",
              result := some s!"{l.length} result(s) found",
              documents := some l, matchCount := some l.length } 200, [docW], 1⟩ ∧
      ((none : Option Int) = none → l = findAll (pyCapitalize "song") [docW]) :=
  get_always_200_with_count "song" none [docW] (by decide)

/-- C10: a Read with identifier 0 behaves exactly as a Read with no
identifier - `if audioID:` treats the falsy 0 as absent - so it returns
all documents of the type rather than the document stored under `_id`
0. -/
theorem get_id_zero_all_documents
    (t : String) (st : Store)
    (hSup : pyLower (pyCapitalize t) ∈ supportedTypes) :
    Get.get t (some 0) st = Get.get t none st ∧
    Get.get t (some 0) st
      = ⟨HandlerResult.resp
          { status := 200, message := "Get Complete",
            result := some s!"{(findAll (pyCapitalize t) st).length} result(s) found",
            documents := some (findAll (pyCapitalize t) st),
            matchCount := some (findAll (pyCapitalize t) st).length } 200, st, 1⟩ := by
  constructor
  · rfl
  · unfold Get.get
    rw [if_neg (not_not_intro hSup)]
    rfl

/-- C10 witness: reading song 0 from a one-Song store returns the whole
song list, identical to the no-identifier read. -/
theorem get_id_zero_all_documents_witness :
    Get.get "song" (some 0) [docW] = Get.get "song" none [docW] ∧
    Get.get "song" (some 0) [docW]
      = ⟨HandlerResult.resp
          { status := 200, message := "Get Complete",
            result := some "1 result(s) found",
            documents := some [docW],
            matchCount := some 1 } 200,
          [docW], 1⟩ := by
  have h := get_id_zero_all_documents "song" [docW] (by decide)
  exact ⟨h.1, by rw [h.2]; decide⟩
